import Mathlib

/-!
Shallow embedding of the senior-citizen registration backend
(`backend/server.py`): the text-parsing heuristics (Aadhaar/PAN/date/name/
address extractors), the age calculator, the registration-id generator, and
the two endpoint bodies (`/api/ocr/extract` and `/api/registration`).

Conventions of the embedding:
* Python strings are Lean `String`s; the recursive workers run on `List Char`.
* Python's `\s`, `\d`, `[A-Z]` character classes are modelled on their ASCII
  meaning (all strings handled by this backend are ASCII).
* Machine calls (clock, uuid, Vision API, Mongo) are parameters: the current
  UTC date, the uuid string, the OCR outcome and the generated id are inputs,
  and persistence is returned as the list of documents inserted.
-/

namespace SeniorReg

/-- ASCII whitespace, the characters matched by Python's `\s` on the ASCII
range (space, tab, newline, carriage return, vertical tab, form feed). -/
def isWS (c : Char) : Bool :=
  c = ' ' || c = '\t' || c = '\n' || c = '\r' || c = '\x0b' || c = '\x0c'

/-- Python `\d` (ASCII): a decimal digit. -/
def isDigitChar (c : Char) : Bool :=
  48 ≤ c.toNat && c.toNat ≤ 57

/-- The character class `[2-9]` of the Aadhaar patterns. -/
def isD29 (c : Char) : Bool :=
  50 ≤ c.toNat && c.toNat ≤ 57

/-- `[A-Z]`. -/
def isUpperAlpha (c : Char) : Bool :=
  65 ≤ c.toNat && c.toNat ≤ 90

/-- Python's `str.lower` on one ASCII character. -/
def pyLowerChar (c : Char) : Char :=
  if 65 ≤ c.toNat && c.toNat ≤ 90 then Char.ofNat (c.toNat + 32) else c

/-- Python's `str.upper` on one ASCII character. -/
def pyUpperChar (c : Char) : Char :=
  if 97 ≤ c.toNat && c.toNat ≤ 122 then Char.ofNat (c.toNat - 32) else c

/-- Python's `str.lower`. -/
def pyLower (l : List Char) : List Char := l.map pyLowerChar

/-- Python's `str.upper`. -/
def pyUpper (l : List Char) : List Char := l.map pyUpperChar

/-- Python's `str.strip()`: drop leading and trailing whitespace. -/
def pyStrip (l : List Char) : List Char :=
  ((l.dropWhile isWS).reverse.dropWhile isWS).reverse

/-- The decimal digit character for `n < 10`. -/
def digitChar (n : Nat) : Char := Char.ofNat (48 + n)

/-- Decimal rendering of a natural number (the digits of Python's
`str(n)`/an f-string interpolation), with explicit fuel. -/
def natStrAux : Nat → Nat → List Char
  | 0, _ => []
  | fuel + 1, n =>
      if n < 10 then [digitChar n]
      else natStrAux fuel (n / 10) ++ [digitChar (n % 10)]

/-- Python's `str(n)` for a natural number. -/
def natStr (n : Nat) : String := ⟨natStrAux (n + 1) n⟩

/-- Python's `str(i)` for an integer. -/
def intStr (i : Int) : String :=
  if i < 0 then "-" ++ natStr i.natAbs else natStr i.natAbs

/-- A calendar date, as produced by `datetime.date`. -/
structure Date where
  year : Nat
  month : Nat
  day : Nat
deriving DecidableEq, Repr

/-- Python tuple comparison `(a, b) < (c, d)`: lexicographic. -/
def pairLt (a b : Nat × Nat) : Bool :=
  a.1 < b.1 || (a.1 = b.1 && a.2 < b.2)

/-! ### `datetime.strptime` for the four formats of `calculate_age`

CPython's `_strptime` compiles `%d` to `(3[01]|[12]\d|0[1-9]|[1-9])`,
`%m` to `(1[0-2]|0[1-9]|[1-9])` and `%Y` to `\d\d\d\d`, requires the whole
string to be consumed, and then `datetime(...)` validates the day against
the month length (Gregorian, with leap years) and requires `year ≥ 1`.
The alternatives of `%d`/`%m` are tried in order with backtracking; we model
that by listing the alternation results in priority order and taking the
first one whose continuation succeeds. -/

/-- Numeric value of a two-digit string. -/
def twoDigit (c1 c2 : Char) : Nat :=
  (c1.toNat - 48) * 10 + (c2.toNat - 48)

/-- The alternation results of `%d` = `(3[01]|[12]\d|0[1-9]|[1-9])` at the
head of the input, in the order the regex engine tries them. -/
def dayAlts : List Char → List (Nat × List Char)
  | c1 :: c2 :: rest =>
      (if c1 = '3' && (c2 = '0' || c2 = '1') then [(twoDigit c1 c2, rest)] else []) ++
      (if (c1 = '1' || c1 = '2') && isDigitChar c2 then [(twoDigit c1 c2, rest)] else []) ++
      (if c1 = '0' && (49 ≤ c2.toNat && c2.toNat ≤ 57) then [(twoDigit c1 c2, rest)] else []) ++
      (if 49 ≤ c1.toNat && c1.toNat ≤ 57 then [(c1.toNat - 48, c2 :: rest)] else [])
  | [c1] =>
      if 49 ≤ c1.toNat && c1.toNat ≤ 57 then [(c1.toNat - 48, [])] else []
  | [] => []

/-- The alternation results of `%m` = `(1[0-2]|0[1-9]|[1-9])`. -/
def monthAlts : List Char → List (Nat × List Char)
  | c1 :: c2 :: rest =>
      (if c1 = '1' && (48 ≤ c2.toNat && c2.toNat ≤ 50) then [(twoDigit c1 c2, rest)] else []) ++
      (if c1 = '0' && (49 ≤ c2.toNat && c2.toNat ≤ 57) then [(twoDigit c1 c2, rest)] else []) ++
      (if 49 ≤ c1.toNat && c1.toNat ≤ 57 then [(c1.toNat - 48, c2 :: rest)] else [])
  | [c1] =>
      if 49 ≤ c1.toNat && c1.toNat ≤ 57 then [(c1.toNat - 48, [])] else []
  | [] => []

/-- `%Y` = exactly four digits. -/
def year4 : List Char → Option (Nat × List Char)
  | c1 :: c2 :: c3 :: c4 :: rest =>
      if isDigitChar c1 && isDigitChar c2 && isDigitChar c3 && isDigitChar c4 then
        some ((twoDigit c1 c2) * 100 + twoDigit c3 c4, rest)
      else none
  | _ => none

/-- Gregorian leap year, as `datetime` uses. -/
def isLeap (y : Nat) : Bool :=
  y % 4 = 0 && (y % 100 ≠ 0 || y % 400 = 0)

/-- Days in a month, as `datetime` validates. -/
def daysInMonth (y m : Nat) : Nat :=
  if m = 2 then (if isLeap y then 29 else 28)
  else if m = 4 || m = 6 || m = 9 || m = 11 then 30
  else 31

/-- The validation performed by constructing `datetime(year, month, day)`:
`MINYEAR ≤ year` (`%Y` caps it at 9999 = `MAXYEAR` already), month and day
ranges already guaranteed by the regex except the month-length check. -/
def validDate (y m d : Nat) : Bool :=
  1 ≤ y && 1 ≤ m && m ≤ 12 && 1 ≤ d && d ≤ daysInMonth y m

/-- `datetime.strptime(s, "%d<sep>%m<sep>%Y").date()`:
day, separator, month, separator, four-digit year, end of string, then the
`datetime` range validation. -/
def parseDMY (sep : Char) (l : List Char) : Option Date :=
  (dayAlts l).findSome? fun p =>
    match p.2 with
    | c :: r2 =>
        if c = sep then
          (monthAlts r2).findSome? fun q =>
            match q.2 with
            | c2 :: r4 =>
                if c2 = sep then
                  match year4 r4 with
                  | some (y, []) =>
                      if validDate y q.1 p.1 then some ⟨y, q.1, p.1⟩ else none
                  | _ => none
                else none
            | [] => none
        else none
    | [] => none

/-- `datetime.strptime(s, "%Y-%m-%d").date()`. -/
def parseYMD (l : List Char) : Option Date :=
  match year4 l with
  | some (y, c :: r1) =>
      if c = '-' then
        (monthAlts r1).findSome? fun q =>
          match q.2 with
          | c2 :: r3 =>
              if c2 = '-' then
                (dayAlts r3).findSome? fun p =>
                  match p.2 with
                  | [] => if validDate y q.1 p.1 then some ⟨y, q.1, p.1⟩ else none
                  | _ :: _ => none
              else none
          | [] => none
      else none
  | _ => none

/-- The loop of `calculate_age`: try `'%d/%m/%Y'`, `'%d-%m-%Y'`,
`'%Y-%m-%d'`, `'%d.%m.%Y'` in that order; the first format that parses
(including the `datetime` validation) wins. -/
def tryFormats (l : List Char) : Option Date :=
  match parseDMY '/' l with
  | some d => some d
  | none =>
      match parseDMY '-' l with
      | some d => some d
      | none =>
          match parseYMD l with
          | some d => some d
          | none => parseDMY '.' l

/-- `calculate_age(birth_date_str)` from `backend/server.py`, with the
current UTC date (`datetime.now(timezone.utc).date()`) as a parameter:
`today.year - birth.year - ((today.month, today.day) < (birth.month,
birth.day))`; any string no format parses yields 0. -/
def calculate_age (today : Date) (birth_date_str : String) : Int :=
  match tryFormats birth_date_str.data with
  | some birth =>
      (today.year : Int) - (birth.year : Int) -
        (if pairLt (today.month, today.day) (birth.month, birth.day) then 1 else 0)
  | none => 0

/-! ### The regex helpers of the field extractors -/

/-- Match exactly `k` characters of class `p` at the head, returning the
consumed prefix and the rest. -/
def takeClass (p : Char → Bool) : Nat → List Char → Option (List Char × List Char)
  | 0, l => some ([], l)
  | k + 1, c :: cs =>
      if p c then (takeClass p k cs).map (fun q => (c :: q.1, q.2)) else none
  | _ + 1, [] => none

/-- `\s?\d{4}` with the greedy optional whitespace: if the head is a
whitespace character the engine consumes it and then needs four digits
(backtracking to the empty alternative cannot help, a whitespace character
is not a digit); otherwise four digits at the head. -/
def spDigits4 : List Char → Option (List Char × List Char)
  | [] => none
  | c :: cs =>
      if isWS c then (takeClass isDigitChar 4 cs).map (fun q => (c :: q.1, q.2))
      else takeClass isDigitChar 4 (c :: cs)

/-- Match of the first Aadhaar pattern `[2-9]\d{3}\s?\d{4}\s?\d{4}` anchored
at the head of the input; returns the matched substring. -/
def matchA1 : List Char → Option (List Char)
  | [] => none
  | c :: cs =>
      if isD29 c then
        (takeClass isDigitChar 3 cs).bind fun x =>
          (spDigits4 x.2).bind fun y =>
            (spDigits4 y.2).map fun z => c :: (x.1 ++ y.1 ++ z.1)
      else none

/-- Match of the second Aadhaar pattern `[2-9]\d{11}` anchored at the head. -/
def matchA2 : List Char → Option (List Char)
  | [] => none
  | c :: cs =>
      if isD29 c then
        (takeClass isDigitChar 11 cs).map fun x => c :: x.1
      else none

/-- `re.search`: try the anchored matcher at each position, left to right
(including the empty suffix), and return the first match. -/
def reSearch (m : List Char → Option (List Char)) : List Char → Option (List Char)
  | [] => m []
  | c :: cs => (m (c :: cs)).or (reSearch m cs)

/-- `re.sub(r'\s', '', number)`: remove all whitespace. -/
def stripWS (l : List Char) : List Char := l.filter (fun c => !isWS c)

/-- `extract_aadhaar_number(text)`: search the spaced pattern, then the
unspaced one (the loop returns on the first pattern that matches); strip
whitespace from the match. -/
def extract_aadhaar_number (text : String) : Option String :=
  ((reSearch matchA1 text.data).or (reSearch matchA2 text.data)).map
    fun m => (⟨stripWS m⟩ : String)

/-- Match of the PAN pattern `[A-Z]{5}[0-9]{4}[A-Z]{1}` anchored at the
head. -/
def matchPAN (l : List Char) : Option (List Char) :=
  (takeClass isUpperAlpha 5 l).bind fun x =>
    (takeClass isDigitChar 4 x.2).bind fun y =>
      (takeClass isUpperAlpha 1 y.2).map fun z => x.1 ++ y.1 ++ z.1

/-- `extract_pan_number(text)`: search the PAN pattern over `text.upper()`. -/
def extract_pan_number (text : String) : Option String :=
  (reSearch matchPAN (pyUpper text.data)).map (fun m => (⟨m⟩ : String))

/-! ### `extract_date_of_birth` -/

/-- A word character for `\b` (`[A-Za-z0-9_]`, ASCII). -/
def isWordChar (c : Char) : Bool :=
  isDigitChar c || isUpperAlpha c || (97 ≤ c.toNat && c.toNat ≤ 122) || c = '_'

/-- A word boundary before the next character, given the previous one. -/
def atBoundary (prev : Option Char) : Bool :=
  match prev with
  | none => true
  | some c => !isWordChar c

/-- `[slash or dash]`. -/
def isSlashDash (c : Char) : Bool := c = '/' || c = '-'

/-- The date core `\d{2}[slash or dash]\d{2}[slash or dash]\d{4}` anchored at the head; returns
the matched substring and the rest. -/
def matchDateCore (l : List Char) : Option (List Char × List Char) :=
  match takeClass isDigitChar 2 l with
  | some (d1, r1) =>
      match r1 with
      | s1 :: r2 =>
          if isSlashDash s1 then
            match takeClass isDigitChar 2 r2 with
            | some (d2, r3) =>
                match r3 with
                | s2 :: r4 =>
                    if isSlashDash s2 then
                      match takeClass isDigitChar 4 r4 with
                      | some (d4, r5) => some (d1 ++ s1 :: d2 ++ s2 :: d4, r5)
                      | none => none
                    else none
                | [] => none
            | none => none
          else none
      | [] => none
  | none => none

/-- The ISO-like core `\d{4}[slash or dash]\d{2}[slash or dash]\d{2}`. -/
def matchDateCoreISO (l : List Char) : Option (List Char × List Char) :=
  match takeClass isDigitChar 4 l with
  | some (d1, r1) =>
      match r1 with
      | s1 :: r2 =>
          if isSlashDash s1 then
            match takeClass isDigitChar 2 r2 with
            | some (d2, r3) =>
                match r3 with
                | s2 :: r4 =>
                    if isSlashDash s2 then
                      match takeClass isDigitChar 2 r4 with
                      | some (d4, r5) => some (d1 ++ s1 :: d2 ++ s2 :: d4, r5)
                      | none => none
                    else none
                | [] => none
            | none => none
          else none
      | [] => none
  | none => none

/-- Pattern `\b(\d{2}[slash or dash]\d{2}[slash or dash]\d{4})\b` anchored at the current
position, knowing the previous character. -/
def matchDob1 (prev : Option Char) (l : List Char) : Option (List Char) :=
  if atBoundary prev then
    match matchDateCore l with
    | some (m, rest) =>
        (match rest with
         | [] => some m
         | c :: _ => if isWordChar c then none else some m)
    | none => none
  else none

/-- Pattern `\b(\d{4}[slash or dash]\d{2}[slash or dash]\d{2})\b`. -/
def matchDob2 (prev : Option Char) (l : List Char) : Option (List Char) :=
  if atBoundary prev then
    match matchDateCoreISO l with
    | some (m, rest) =>
        (match rest with
         | [] => some m
         | c :: _ => if isWordChar c then none else some m)
    | none => none
  else none

/-- Case-insensitive literal match of `word` at the head (`re.IGNORECASE`). -/
def matchCaseless : List Char → List Char → Option (List Char)
  | [], l => some l
  | _ :: _, [] => none
  | w :: ws, c :: cs =>
      if pyLowerChar c = pyLowerChar w then matchCaseless ws cs else none

/-- `[:\s]*` greedy; backtracking is moot because what follows is a digit
and every character of the class is not. Returns the rest. -/
def dropColonWS (l : List Char) : List Char :=
  l.dropWhile (fun c => c = ':' || isWS c)

/-- Pattern `DOB[:\s]*(\d{2}[slash or dash]\d{2}[slash or dash]\d{4})` (ignorecase), returning
group 1. -/
def matchDob3 (_prev : Option Char) (l : List Char) : Option (List Char) :=
  match matchCaseless "DOB".data l with
  | some r1 =>
      match matchDateCore (dropColonWS r1) with
      | some (m, _) => some m
      | none => none
  | none => none

/-- Pattern `Birth[:\s]*(\d{2}[slash or dash]\d{2}[slash or dash]\d{4})` (ignorecase), returning
group 1. -/
def matchDob4 (_prev : Option Char) (l : List Char) : Option (List Char) :=
  match matchCaseless "Birth".data l with
  | some r1 =>
      match matchDateCore (dropColonWS r1) with
      | some (m, _) => some m
      | none => none
  | none => none

/-- `re.search` for a matcher that also sees the previous character (for
`\b`). -/
def reSearchP (m : Option Char → List Char → Option (List Char)) :
    Option Char → List Char → Option (List Char)
  | prev, [] => m prev []
  | prev, c :: cs =>
      match m prev (c :: cs) with
      | some r => some r
      | none => reSearchP m (some c) cs

/-- `extract_date_of_birth(text)`: the four patterns in order; every pattern
has a capture group, so the group is returned. -/
def extract_date_of_birth (text : String) : Option String :=
  match reSearchP matchDob1 none text.data with
  | some m => some ⟨m⟩
  | none =>
      match reSearchP matchDob2 none text.data with
      | some m => some ⟨m⟩
      | none =>
          match reSearchP matchDob3 none text.data with
          | some m => some ⟨m⟩
          | none =>
              match reSearchP matchDob4 none text.data with
              | some m => some ⟨m⟩
              | none => none

/-! ### `extract_name_from_text` and the address scan -/

/-- Python `str.split('\n')`. -/
def splitNL : List Char → List (List Char)
  | [] => [[]]
  | c :: cs =>
      match splitNL cs with
      | [] => [[]]
      | g :: gs => if c = '\n' then [] :: g :: gs else (c :: g) :: gs

/-- Does `hay` start with `needle`? -/
def startsWithSub : List Char → List Char → Bool
  | [], _ => true
  | _ :: _, [] => false
  | a :: as, b :: bs => a = b && startsWithSub as bs

/-- Python's substring test `needle in hay`. -/
def containsSub (needle : List Char) : List Char → Bool
  | [] => startsWithSub needle []
  | c :: cs => startsWithSub needle (c :: cs) || containsSub needle cs

/-- `any(keyword in line.lower() for keyword in ['name', 'naam'])`. -/
def hasNameKw (l : List Char) : Bool :=
  containsSub "name".data (pyLower l) || containsSub "naam".data (pyLower l)

/-- `line.split(':', 1)[1]`: everything after the first colon. -/
def afterFirstColon : List Char → List Char
  | [] => []
  | c :: cs => if c = ':' then cs else afterFirstColon cs

/-- The candidate produced by one keyword line of the name loop: after the
colon if there is one, otherwise the next raw line, kept when its stripped
form is longer than 2 characters. -/
def nameCandsAux : List (List Char) → List (List Char)
  | [] => []
  | l :: rest =>
      let s := pyStrip l
      let cur :=
        if hasNameKw s then
          if containsSub [':'] s then
            let p := pyStrip (afterFirstColon s)
            if 2 < p.length then [p] else []
          else
            match rest with
            | next :: _ =>
                let p := pyStrip next
                if 2 < p.length then [p] else []
            | [] => []
        else []
      cur ++ nameCandsAux rest

/-- Python `str.split()` (split on whitespace runs, dropping empties). -/
def pyWords : List Char → List (List Char)
  | [] => []
  | c :: cs =>
      if isWS c then pyWords cs
      else
        match pyWords cs with
        | [] => [[c]]
        | w :: ws => if isWS (cs.headD ' ') then [c] :: w :: ws else (c :: w) :: ws

/-- The fallback of `extract_name_from_text`: among the first five lines,
the first whose first two whitespace-separated words both start with an
uppercase letter (Python `str.isupper` on the first character). -/
def nameFallback (lines : List (List Char)) : Option (List Char) :=
  (lines.take 5).findSome? fun l =>
    let ws := pyWords (pyStrip l)
    if 2 ≤ ws.length && (ws.take 2).all (fun w => isUpperAlpha (w.headD ' ')) then
      some (pyStrip l)
    else none

/-- `extract_name_from_text(text, id_type)` (the id type is unused by the
function body). -/
def extract_name_from_text (text : String) (_id_type : String) : Option String :=
  let lines := splitNL text.data
  match nameCandsAux lines with
  | c :: _ => some ⟨c⟩
  | [] => (nameFallback lines).map (fun l => (⟨l⟩ : String))

/-- `any(keyword in line.lower() for keyword in ['address', 'addr',
'pincode', 'pin'])` on the raw (unstripped) line. -/
def hasAddrKw (l : List Char) : Bool :=
  containsSub "address".data (pyLower l) || containsSub "addr".data (pyLower l) ||
  containsSub "pincode".data (pyLower l) || containsSub "pin".data (pyLower l)

/-- The address scan of `parse_ocr_text`: on the first keyword line, the
stripped non-empty lines among the next three; the loop breaks after the
first keyword hit. -/
def addrParts : List (List Char) → List (List Char)
  | [] => []
  | l :: rest =>
      if hasAddrKw l then
        (rest.take 3).filterMap fun x =>
          let s := pyStrip x
          if s.isEmpty then none else some s
      else addrParts rest

/-- The structured field set built by `parse_ocr_text` (the five keys of
its result dict, in insertion order). -/
structure FieldSet where
  full_name : String
  date_of_birth : String
  id_number : String
  id_type : String
  address : String
deriving DecidableEq, Repr

/-- The dict `parse_ocr_text` returns, as key/value pairs in insertion
order. -/
def FieldSet.toPairs (f : FieldSet) : List (String × String) :=
  [("full_name", f.full_name), ("date_of_birth", f.date_of_birth),
   ("id_number", f.id_number), ("id_type", f.id_type), ("address", f.address)]

/-- Python truthiness of an optional string (`if dob:`): not `None` and not
empty. -/
def truthy : Option String → Bool
  | none => false
  | some s => !s.data.isEmpty

/-- `parse_ocr_text(full_text)`: id classification (Aadhaar before PAN),
date of birth, name, and the address scan. -/
def parse_ocr_text (full_text : String) : FieldSet :=
  let aadhaar := extract_aadhaar_number full_text
  let pan := extract_pan_number full_text
  let idPair : String × String :=
    if truthy aadhaar then (aadhaar.getD "", "Aadhaar")
    else if truthy pan then (pan.getD "", "PAN")
    else ("", "")
  let dob := extract_date_of_birth full_text
  let dobs := if truthy dob then dob.getD "" else ""
  let name := extract_name_from_text full_text idPair.2
  let names := if truthy name then name.getD "" else ""
  let lines := splitNL full_text.data
  let addr :=
    match addrParts lines with
    | [] => ""
    | parts => (⟨List.intercalate ", ".data parts⟩ : String)
  { full_name := names, date_of_birth := dobs, id_number := idPair.1,
    id_type := idPair.2, address := addr }

/-! ### Identifier generation and the endpoint bodies -/

/-- `generate_registration_id()`: `f"REG{year}-{str(uuid.uuid4())[:4].upper()}"`,
with the current UTC year and the uuid4 string as parameters. -/
def generate_registration_id (year : Nat) (uuidStr : String) : String :=
  "REG" ++ natStr year ++ "-" ++ (⟨pyUpper (uuidStr.data.take 4)⟩ : String)

/-- The `OCRResponse` pydantic model: `parsed_data` is a `Dict[str, Any]`,
modelled as key/value pairs in insertion order. -/
structure OCRResponse where
  success : Bool
  extracted_text : String
  parsed_data : List (String × String)
  error : Option String
deriving DecidableEq, Repr

/-- What the Vision API call can come back with. -/
inductive OcrOutcome where
  /-- A response whose `full_text_annotation` text is `t` (the code turns a
  missing annotation into `""`). -/
  | text (t : String)
  /-- A response with a non-empty `error.message`. -/
  | apiError (msg : String)
  /-- The call itself raised, with message `msg`. -/
  | raised (msg : String)
deriving DecidableEq, Repr

/-- `str(e)` for a starlette `HTTPException`: `f"{status_code}: {detail}"`. -/
def httpExcStr (code : Nat) (detail : String) : String :=
  natStr code ++ ": " ++ detail

/-- The body of `POST /api/ocr/extract` (`extract_text_from_id`).
Parameters: whether `vision_client` is configured, the byte length of the
uploaded file, and the Vision outcome. Result: either an uncaught
`HTTPException` (status, detail) — only the unconfigured-client check is
outside the `try` — or the structured `OCRResponse`; the second component
records whether `document_text_detection` was invoked. Every exception
raised inside the `try` (including the 10 MB `HTTPException` and the Vision
error `HTTPException`) is caught by `except Exception` and folded into an
error `OCRResponse`. -/
def extract_text_from_id (visionConfigured : Bool) (fileSize : Nat)
    (ocr : OcrOutcome) : Except (Nat × String) OCRResponse × Bool :=
  if !visionConfigured then
    (Except.error (500, "Vision API not configured"), false)
  else if 10 * 1024 * 1024 < fileSize then
    (Except.ok ⟨false, "", [], some (httpExcStr 400 "File size exceeds 10MB limit")⟩,
     false)
  else
    match ocr with
    | OcrOutcome.apiError m =>
        (Except.ok ⟨false, "", [], some (httpExcStr 500 ("Vision API error: " ++ m))⟩,
         true)
    | OcrOutcome.raised m =>
        (Except.ok ⟨false, "", [], some m⟩, true)
    | OcrOutcome.text t =>
        if t.data.isEmpty then
          (Except.ok ⟨false, "", [], some "No text detected in the image"⟩, true)
        else
          (Except.ok ⟨true, t, (parse_ocr_text t).toPairs, none⟩, true)

/-- The `RegistrationCreate` request model. -/
structure RegistrationCreate where
  full_name : String
  date_of_birth : String
  address : String
  id_number : String
  id_type : String
  extracted_data : Option (List (String × String))
deriving DecidableEq, Repr

/-- The persisted `Registration` entity (`created_at` kept as its ISO
string). -/
structure Registration where
  registration_id : String
  full_name : String
  date_of_birth : String
  age : Int
  address : String
  id_number : String
  id_type : String
  extracted_data : Option (List (String × String))
  created_at : String
deriving DecidableEq, Repr

/-- The body of `POST /api/registration` (`create_registration`).
Parameters: the current UTC date, the generated registration id, the
`created_at` timestamp string, and the request. Result: the response
(eligibility failures re-raise the 400 `HTTPException`) together with the
list of documents inserted into `db.registrations`. -/
def create_registration (today : Date) (regId : String) (nowIso : String)
    (registration : RegistrationCreate) :
    Except (Nat × String) Registration × List Registration :=
  let age := calculate_age today registration.date_of_birth
  if age < 50 then
    (Except.error (400, "Age must be 50 or above. Current age: " ++ intStr age), [])
  else
    let reg : Registration :=
      { registration_id := regId
        full_name := registration.full_name
        date_of_birth := registration.date_of_birth
        age := age
        address := registration.address
        id_number := registration.id_number
        id_type := registration.id_type
        extracted_data := registration.extracted_data
        created_at := nowIso }
    (Except.ok reg, [reg])

/-! ### Helper lemmas about characters, digit strings and the Aadhaar
matchers -/

/-- `Char.ofNat` round-trips through `toNat` below the surrogate range. -/
theorem char_toNat_ofNat {n : Nat} (h : n < 55296) : (Char.ofNat n).toNat = n := by
  unfold Char.ofNat
  rw [dif_pos (Or.inl (by omega))]
  unfold Char.ofNatAux
  simp [Char.toNat, UInt32.toNat]

/-- A digit character is never whitespace. -/
theorem digit_not_ws {c : Char} (h : isDigitChar c = true) : isWS c = false := by
  unfold isDigitChar at h
  rw [Bool.and_eq_true, decide_eq_true_eq, decide_eq_true_eq] at h
  simp only [isWS, Bool.or_eq_false_iff, decide_eq_false_iff_not]
  refine ⟨⟨⟨⟨⟨?_, ?_⟩, ?_⟩, ?_⟩, ?_⟩, ?_⟩ <;> rintro rfl <;> revert h <;> decide

/-- The `[2-9]` class is contained in the digits. -/
theorem d29_digit {c : Char} (h : isD29 c = true) : isDigitChar c = true := by
  unfold isD29 at h
  unfold isDigitChar
  rw [Bool.and_eq_true, decide_eq_true_eq, decide_eq_true_eq] at h
  rw [Bool.and_eq_true, decide_eq_true_eq, decide_eq_true_eq]
  omega

/-- Whitespace removal distributes over concatenation. -/
theorem stripWS_append (a b : List Char) :
    stripWS (a ++ b) = stripWS a ++ stripWS b :=
  List.filter_append ..

/-- Whitespace removal keeps a digit head. -/
theorem stripWS_cons_digit {c : Char} {t : List Char} (h : isDigitChar c = true) :
    stripWS (c :: t) = c :: stripWS t := by
  unfold stripWS
  rw [List.filter_cons_of_pos (by simp [digit_not_ws h])]

/-- Whitespace removal drops a whitespace head. -/
theorem stripWS_cons_ws {c : Char} {t : List Char} (h : isWS c = true) :
    stripWS (c :: t) = stripWS t := by
  unfold stripWS
  rw [List.filter_cons_of_neg (by simp [h])]

/-- Whitespace removal keeps a digit string intact. -/
theorem stripWS_digits {l : List Char} (h : l.all isDigitChar = true) :
    stripWS l = l := by
  refine List.filter_eq_self.mpr fun a ha => ?_
  rw [List.all_eq_true] at h
  rw [digit_not_ws (h a ha)]
  rfl

/-- Soundness of `takeClass`: the consumed prefix has the requested length,
all its characters satisfy the class, and the input splits accordingly. -/
theorem takeClass_sound {p : Char → Bool} :
    ∀ {k : Nat} {l d r : List Char}, takeClass p k l = some (d, r) →
      l = d ++ r ∧ d.length = k ∧ d.all p = true := by
  intro k
  induction k with
  | zero =>
      intro l d r h
      simp only [takeClass] at h
      obtain ⟨rfl, rfl⟩ : ([] : List Char) = d ∧ l = r := by
        have := Option.some_inj.mp h
        exact ⟨congrArg Prod.fst this, congrArg Prod.snd this⟩
      exact ⟨rfl, rfl, rfl⟩
  | succ k ih =>
      intro l d r h
      cases l with
      | nil => simp [takeClass] at h
      | cons c cs =>
          simp only [takeClass] at h
          by_cases hc : p c = true
          · rw [if_pos hc, Option.map_eq_some'] at h
            obtain ⟨⟨d0, r0⟩, hq, heq⟩ := h
            obtain ⟨h1, h2, h3⟩ := ih hq
            have hd : c :: d0 = d := congrArg Prod.fst heq
            have hr : r0 = r := congrArg Prod.snd heq
            subst hd hr
            refine ⟨by rw [h1]; rfl, by simp [h2], ?_⟩
            simp [List.all_cons, hc, h3]
          · rw [if_neg hc] at h
            exact absurd h (by simp)

/-- `takeClass` is insensitive to what comes after the consumed input. -/
theorem takeClass_append {p : Char → Bool} :
    ∀ {k : Nat} {l d r post : List Char}, takeClass p k l = some (d, r) →
      takeClass p k (l ++ post) = some (d, r ++ post) := by
  intro k
  induction k with
  | zero =>
      intro l d r post h
      simp only [takeClass] at h ⊢
      have := Option.some_inj.mp h
      have hd : ([] : List Char) = d := congrArg Prod.fst this
      have hr : l = r := congrArg Prod.snd this
      subst hd; subst hr; rfl
  | succ k ih =>
      intro l d r post h
      cases l with
      | nil => simp [takeClass] at h
      | cons c cs =>
          simp only [takeClass] at h ⊢
          simp only [List.append_eq]
          by_cases hc : p c = true
          · rw [if_pos hc, Option.map_eq_some'] at h
            obtain ⟨⟨d0, r0⟩, hq, heq⟩ := h
            rw [if_pos hc, ih hq]
            have hd : c :: d0 = d := congrArg Prod.fst heq
            have hr : r0 = r := congrArg Prod.snd heq
            subst hd; subst hr; rfl
          · rw [if_neg hc] at h
            exact absurd h (by simp)

/-- Soundness of the `\s?\d{4}` step: the consumed group strips to exactly
four digits. -/
theorem spDigits4_sound {l g r : List Char} (h : spDigits4 l = some (g, r)) :
    l = g ++ r ∧ stripWS g = (stripWS g).take 4 ∧ (stripWS g).length = 4 ∧
      (stripWS g).all isDigitChar = true := by
  cases l with
  | nil => simp [spDigits4] at h
  | cons c cs =>
      simp only [spDigits4] at h
      by_cases hc : isWS c = true
      · rw [if_pos hc, Option.map_eq_some'] at h
        obtain ⟨⟨d0, r0⟩, hq, heq⟩ := h
        obtain ⟨h1, h2, h3⟩ := takeClass_sound hq
        have hg : c :: d0 = g := congrArg Prod.fst heq
        have hr : r0 = r := congrArg Prod.snd heq
        subst hg; subst hr
        have hstrip : stripWS (c :: d0) = d0 := by
          rw [stripWS_cons_ws hc]
          exact stripWS_digits h3
        rw [hstrip]
        exact ⟨by rw [h1]; rfl, by rw [List.take_of_length_le (by omega)], h2, h3⟩
      · rw [if_neg hc] at h
        obtain ⟨h1, h2, h3⟩ := takeClass_sound h
        have hstrip : stripWS g = g := stripWS_digits h3
        rw [hstrip]
        exact ⟨h1, by rw [List.take_of_length_le (by omega)], h2, h3⟩

/-- The `\s?\d{4}` step is insensitive to input beyond what it consumes. -/
theorem spDigits4_append {l g r post : List Char} (h : spDigits4 l = some (g, r)) :
    spDigits4 (l ++ post) = some (g, r ++ post) := by
  cases l with
  | nil => simp [spDigits4] at h
  | cons c cs =>
      rw [List.cons_append]
      simp only [spDigits4] at h ⊢
      by_cases hc : isWS c = true
      · rw [if_pos hc, Option.map_eq_some'] at h
        obtain ⟨⟨d0, r0⟩, hq, heq⟩ := h
        rw [if_pos hc, takeClass_append hq]
        have hd : c :: d0 = g := congrArg Prod.fst heq
        have hr : r0 = r := congrArg Prod.snd heq
        subst hd; subst hr; rfl
      · rw [if_neg hc] at h
        rw [if_neg hc]
        exact takeClass_append h

/-- Soundness of the spaced Aadhaar matcher: the match is a prefix of the
input and strips to 12 digits whose first is in `[2-9]`. -/
theorem matchA1_sound {l m : List Char} (h : matchA1 l = some m) :
    (∃ r, l = m ++ r) ∧ (stripWS m).length = 12 ∧
      (stripWS m).all isDigitChar = true ∧
      ∃ c cs, stripWS m = c :: cs ∧ isD29 c = true := by
  cases l with
  | nil => simp [matchA1] at h
  | cons c cs =>
      simp only [matchA1] at h
      by_cases hc : isD29 c = true
      · rw [if_pos hc] at h
        rw [Option.bind_eq_some] at h
        obtain ⟨⟨d3, r1⟩, h3, h⟩ := h
        dsimp only at h
        rw [Option.bind_eq_some] at h
        obtain ⟨⟨g2, r2⟩, h4, h⟩ := h
        dsimp only at h
        rw [Option.map_eq_some'] at h
        obtain ⟨⟨g3, r3⟩, h5, heq⟩ := h
        dsimp only at heq
        obtain ⟨e1, e2, e3⟩ := takeClass_sound h3
        obtain ⟨f1, _, f3, f4⟩ := spDigits4_sound h4
        obtain ⟨g1, _, g3len, g4⟩ := spDigits4_sound h5
        subst heq
        have hcd : isDigitChar c = true := d29_digit hc
        have hstrip : stripWS (c :: (d3 ++ g2 ++ g3)) =
            c :: (d3 ++ stripWS g2 ++ stripWS g3) := by
          rw [stripWS_cons_digit hcd, stripWS_append, stripWS_append,
            stripWS_digits e3]
        constructor
        · exact ⟨r3, by rw [e1, f1, g1]; simp⟩
        · rw [hstrip]
          refine ⟨by simp [e2, f3, g3len], ?_, c, _, rfl, hc⟩
          simp only [List.all_cons, List.all_append, hcd, e3, f4, g4,
            Bool.and_self, Bool.true_and]
      · rw [if_neg hc] at h
        exact absurd h (by simp)

/-- The spaced Aadhaar matcher ignores input beyond its match. -/
theorem matchA1_append {l m post : List Char} (h : matchA1 l = some m) :
    matchA1 (l ++ post) = some m := by
  cases l with
  | nil => simp [matchA1] at h
  | cons c cs =>
      rw [List.cons_append]
      simp only [matchA1] at h ⊢
      by_cases hc : isD29 c = true
      · rw [if_pos hc] at h
        rw [Option.bind_eq_some] at h
        obtain ⟨⟨d3, r1⟩, h3, h⟩ := h
        dsimp only at h
        rw [Option.bind_eq_some] at h
        obtain ⟨⟨g2, r2⟩, h4, h⟩ := h
        dsimp only at h
        rw [Option.map_eq_some'] at h
        obtain ⟨⟨g3, r3⟩, h5, heq⟩ := h
        dsimp only at heq
        rw [if_pos hc]
        rw [Option.bind_eq_some]
        refine ⟨(d3, r1 ++ post), takeClass_append h3, ?_⟩
        dsimp only
        rw [Option.bind_eq_some]
        refine ⟨(g2, r2 ++ post), spDigits4_append h4, ?_⟩
        dsimp only
        rw [Option.map_eq_some']
        exact ⟨(g3, r3 ++ post), spDigits4_append h5, heq⟩
      · rw [if_neg hc] at h
        exact absurd h (by simp)

/-- Soundness of the unspaced Aadhaar matcher. -/
theorem matchA2_sound {l m : List Char} (h : matchA2 l = some m) :
    (∃ r, l = m ++ r) ∧ (stripWS m).length = 12 ∧
      (stripWS m).all isDigitChar = true ∧
      ∃ c cs, stripWS m = c :: cs ∧ isD29 c = true := by
  cases l with
  | nil => simp [matchA2] at h
  | cons c cs =>
      simp only [matchA2] at h
      by_cases hc : isD29 c = true
      · rw [if_pos hc, Option.map_eq_some'] at h
        obtain ⟨⟨d11, r⟩, hq, heq⟩ := h
        dsimp only at heq
        obtain ⟨e1, e2, e3⟩ := takeClass_sound hq
        subst heq
        have hcd : isDigitChar c = true := d29_digit hc
        have hall : (c :: d11).all isDigitChar = true := by
          simp [List.all_cons, hcd, e3]
        have hstrip : stripWS (c :: d11) = c :: d11 := stripWS_digits hall
        rw [hstrip]
        exact ⟨⟨r, by rw [e1]; rfl⟩, by simp [e2], hall, c, d11, rfl, hc⟩
      · rw [if_neg hc] at h
        exact absurd h (by simp)

/-- The unspaced Aadhaar matcher ignores input beyond its match. -/
theorem matchA2_append {l m post : List Char} (h : matchA2 l = some m) :
    matchA2 (l ++ post) = some m := by
  cases l with
  | nil => simp [matchA2] at h
  | cons c cs =>
      rw [List.cons_append]
      simp only [matchA2] at h ⊢
      by_cases hc : isD29 c = true
      · rw [if_pos hc, Option.map_eq_some'] at h
        obtain ⟨⟨d11, r⟩, hq, heq⟩ := h
        dsimp only at heq
        rw [if_pos hc, Option.map_eq_some']
        exact ⟨(d11, r ++ post), takeClass_append hq, heq⟩
      · rw [if_neg hc] at h
        exact absurd h (by simp)

/-- A successful search comes from a successful anchored match somewhere. -/
theorem reSearch_sound (f : List Char → Option (List Char)) :
    ∀ {l r : List Char}, reSearch f l = some r → ∃ tl, f tl = some r := by
  intro l
  induction l with
  | nil =>
      intro r h
      exact ⟨[], h⟩
  | cons c cs ih =>
      intro r h
      simp only [reSearch] at h
      rw [Option.or_eq_some] at h
      rcases h with h | ⟨_, h⟩
      · exact ⟨c :: cs, h⟩
      · exact ih h

/-- If the anchored matcher succeeds on some suffix, the search succeeds. -/
theorem reSearch_some_of_suffix (f : List Char → Option (List Char))
    (pre : List Char) {rest r : List Char} (h : f rest = some r) :
    ∃ r2, reSearch f (pre ++ rest) = some r2 := by
  induction pre with
  | nil =>
      cases rest with
      | nil => exact ⟨r, h⟩
      | cons c cs =>
          refine ⟨r, ?_⟩
          simp only [List.nil_append, reSearch]
          rw [h]
          rfl
  | cons c pre ih =>
      obtain ⟨r2, hr2⟩ := ih
      rw [List.cons_append]
      simp only [reSearch]
      cases hf : f (c :: (pre ++ rest)) with
      | some m => exact ⟨m, rfl⟩
      | none => exact ⟨r2, hr2⟩

/-- Shape of every value `extract_aadhaar_number` returns: 12 characters,
all digits, first in `[2-9]`. -/
theorem extract_aadhaar_shape {text a : String}
    (h : extract_aadhaar_number text = some a) :
    a.data.length = 12 ∧ a.data.all isDigitChar = true ∧
      ∃ c cs, a.data = c :: cs ∧ isD29 c = true := by
  unfold extract_aadhaar_number at h
  rw [Option.map_eq_some'] at h
  obtain ⟨m, hm, heq⟩ := h
  rw [Option.or_eq_some] at hm
  have hshape : (stripWS m).length = 12 ∧ (stripWS m).all isDigitChar = true ∧
      ∃ c cs, stripWS m = c :: cs ∧ isD29 c = true := by
    rcases hm with hm | ⟨_, hm⟩
    · obtain ⟨tl, htl⟩ := reSearch_sound matchA1 hm
      obtain ⟨_, hlen, hdig, hcons⟩ := matchA1_sound htl
      exact ⟨hlen, hdig, hcons⟩
    · obtain ⟨tl, htl⟩ := reSearch_sound matchA2 hm
      obtain ⟨_, hlen, hdig, hcons⟩ := matchA2_sound htl
      exact ⟨hlen, hdig, hcons⟩
  rw [← heq]
  exact hshape

/-- When the Aadhaar extractor returns a (necessarily non-empty) value, the
parser classifies the text as Aadhaar and copies that value. -/
theorem parse_id_of_aadhaar {text a : String}
    (h : extract_aadhaar_number text = some a) (hne : a.data.isEmpty = false) :
    (parse_ocr_text text).id_type = "Aadhaar" ∧
      (parse_ocr_text text).id_number = a := by
  have ht : truthy (some a) = true := by
    simp only [truthy]
    rw [hne]
    rfl
  constructor <;> simp [parse_ocr_text, h, ht]

/-! ### Theorems -/

/-- C4: the example text parses to full name `RAJESH KUMAR SHARMA`, date of
birth `15/08/1970`, id number `234567890123` classified `Aadhaar`, and the
address made of the non-empty lines after the `Address` line, joined with
`", "`. -/
theorem C4_example_parse :
    parse_ocr_text "Name: RAJESH KUMAR SHARMA\nDOB: 15/08/1970\nAddress: 123 Main Street\nNew Delhi 110001\n2345 6789 0123" =
      { full_name := "RAJESH KUMAR SHARMA"
        date_of_birth := "15/08/1970"
        id_number := "234567890123"
        id_type := "Aadhaar"
        address := "New Delhi 110001, 2345 6789 0123" } := by
  decide

/-- C7 (counterexample): on empty OCR text the endpoint does return
`success = false` with the documented error, but `parsed_data` is the empty
dict `{}` — it has no `full_name` key at all, contradicting the claim that
all five fields are present as empty strings. -/
theorem C7_counterexample :
    (extract_text_from_id true 5 (OcrOutcome.text "")).1.toOption.map
        OCRResponse.parsed_data = some [] ∧
    (extract_text_from_id true 5 (OcrOutcome.text "")).1.toOption.map
        (fun r => r.parsed_data.lookup "full_name") = some none := by
  decide

/-- C7 (amended): when the OCR text is empty (and the payload is within the
size cap), the endpoint returns a structured response with
`success = false`, `error = "No text detected in the image"`, empty
`extracted_text`, and `parsed_data` the empty dict (no fields present). -/
theorem C7_empty_ocr_response (size : Nat) (h : size ≤ 10 * 1024 * 1024) :
    extract_text_from_id true size (OcrOutcome.text "") =
      (Except.ok { success := false, extracted_text := "", parsed_data := [],
                   error := some "No text detected in the image" }, true) := by
  unfold extract_text_from_id
  rw [if_neg (by simp), if_neg (by omega)]
  rfl

/-- C7 witness: the amended statement at a concrete size. -/
theorem C7_empty_ocr_response_witness :
    extract_text_from_id true 5 (OcrOutcome.text "") =
      (Except.ok { success := false, extracted_text := "", parsed_data := [],
                   error := some "No text detected in the image" }, true) :=
  C7_empty_ocr_response 5 (by omega)

/-- C8: any payload strictly larger than 10 MiB is rejected (the size-limit
`HTTPException` is folded into a structured failure by the `except` clause)
and the Vision `document_text_detection` call is never reached, whatever
the OCR collaborator would have answered. -/
theorem C8_oversize_skips_ocr (size : Nat) (ocr : OcrOutcome)
    (h : 10 * 1024 * 1024 < size) :
    extract_text_from_id true size ocr =
      (Except.ok { success := false, extracted_text := "", parsed_data := [],
                   error := some "400: File size exceeds 10MB limit" }, false) := by
  unfold extract_text_from_id
  rw [if_neg (by simp), if_pos h]
  rfl

/-- C8 witness: one byte over the cap, with an OCR collaborator that would
have returned text. -/
theorem C8_oversize_skips_ocr_witness :
    extract_text_from_id true (10 * 1024 * 1024 + 1) (OcrOutcome.text "hello") =
      (Except.ok { success := false, extracted_text := "", parsed_data := [],
                   error := some "400: File size exceeds 10MB limit" }, false) :=
  C8_oversize_skips_ocr (10 * 1024 * 1024 + 1) (OcrOutcome.text "hello") (by omega)

/-- C2: `create_registration` rejects with the 400 eligibility error, whose
detail carries the computed age, exactly when the computed age is below 50;
otherwise it persists and returns a record (whose `age` field is the
computed age). -/
theorem C2_eligibility_boundary (today : Date) (regId nowIso : String)
    (r : RegistrationCreate) :
    (calculate_age today r.date_of_birth < 50 →
      create_registration today regId nowIso r =
        (Except.error (400, "Age must be 50 or above. Current age: " ++
            intStr (calculate_age today r.date_of_birth)), [])) ∧
    (50 ≤ calculate_age today r.date_of_birth →
      ∃ reg, create_registration today regId nowIso r = (Except.ok reg, [reg]) ∧
        reg.age = calculate_age today r.date_of_birth) := by
  constructor
  · intro h
    simp only [create_registration]
    rw [if_pos h]
  · intro h
    simp only [create_registration]
    rw [if_neg (by omega)]
    exact ⟨_, rfl, rfl⟩

/-- C2 witness: with today = 2026-10-12, birth date `01/01/1977` computes
age 49 and is rejected with the age in the message; `01/01/1976` computes
age 50 and is accepted. -/
theorem C2_eligibility_boundary_witness :
    create_registration ⟨2026, 10, 12⟩ "R" "T" ⟨"A", "01/01/1977", "x", "y", "z", none⟩ =
      (Except.error (400, "Age must be 50 or above. Current age: 49"), []) ∧
    ∃ reg, create_registration ⟨2026, 10, 12⟩ "R" "T" ⟨"A", "01/01/1976", "x", "y", "z", none⟩ =
      (Except.ok reg, [reg]) ∧ reg.age = 50 := by
  constructor
  · have h := (C2_eligibility_boundary ⟨2026, 10, 12⟩ "R" "T"
      ⟨"A", "01/01/1977", "x", "y", "z", none⟩).1 (by decide)
    exact h.trans (by rfl)
  · obtain ⟨reg, hr, ha⟩ := (C2_eligibility_boundary ⟨2026, 10, 12⟩ "R" "T"
      ⟨"A", "01/01/1976", "x", "y", "z", none⟩).2 (by decide)
    exact ⟨reg, hr, ha.trans (by decide)⟩

/-- C5: when the computed age is at least 50, the persisted registration
copies `full_name`, `date_of_birth`, `address`, `id_number`, `id_type` and
`extracted_data` verbatim from the input; only `age`, `registration_id` and
`created_at` are derived. -/
theorem C5_input_fields_preserved (today : Date) (regId nowIso : String)
    (r : RegistrationCreate) (h : 50 ≤ calculate_age today r.date_of_birth) :
    ∃ reg, create_registration today regId nowIso r = (Except.ok reg, [reg]) ∧
      reg.full_name = r.full_name ∧ reg.date_of_birth = r.date_of_birth ∧
      reg.address = r.address ∧ reg.id_number = r.id_number ∧
      reg.id_type = r.id_type ∧ reg.extracted_data = r.extracted_data ∧
      reg.age = calculate_age today r.date_of_birth ∧
      reg.registration_id = regId ∧ reg.created_at = nowIso := by
  refine ⟨{ registration_id := regId, full_name := r.full_name,
            date_of_birth := r.date_of_birth,
            age := calculate_age today r.date_of_birth, address := r.address,
            id_number := r.id_number, id_type := r.id_type,
            extracted_data := r.extracted_data, created_at := nowIso },
          ?_, rfl, rfl, rfl, rfl, rfl, rfl, rfl, rfl, rfl⟩
  simp only [create_registration]
  rw [if_neg (by omega)]

/-- C5 witness: a concrete parsed field set re-fed with an eligible date of
birth is stored unchanged. -/
theorem C5_input_fields_preserved_witness :
    ∃ reg, create_registration ⟨2026, 10, 12⟩ "REG2026-AB12" "2026-10-12T00:00:00+00:00"
        ⟨"RAJESH KUMAR SHARMA", "15/08/1970", "New Delhi 110001, 2345 6789 0123",
         "234567890123", "Aadhaar", none⟩ = (Except.ok reg, [reg]) ∧
      reg.full_name = "RAJESH KUMAR SHARMA" ∧ reg.date_of_birth = "15/08/1970" ∧
      reg.address = "New Delhi 110001, 2345 6789 0123" ∧
      reg.id_number = "234567890123" ∧
      reg.id_type = "Aadhaar" ∧ reg.extracted_data = none ∧
      reg.age = calculate_age ⟨2026, 10, 12⟩ "15/08/1970" ∧
      reg.registration_id = "REG2026-AB12" ∧
      reg.created_at = "2026-10-12T00:00:00+00:00" :=
  C5_input_fields_preserved ⟨2026, 10, 12⟩ "REG2026-AB12" "2026-10-12T00:00:00+00:00"
    ⟨"RAJESH KUMAR SHARMA", "15/08/1970", "New Delhi 110001, 2345 6789 0123",
     "234567890123", "Aadhaar", none⟩ (by decide)

/-- C9: a `date_of_birth` no format parses gives computed age 0, so the
request is always rejected with the eligibility error reporting age 0 and
nothing is ever inserted into the store. -/
theorem C9_unparseable_never_persisted (today : Date) (regId nowIso : String)
    (r : RegistrationCreate) (h : tryFormats r.date_of_birth.data = none) :
    create_registration today regId nowIso r =
      (Except.error (400, "Age must be 50 or above. Current age: 0"), []) := by
  have hage : calculate_age today r.date_of_birth = 0 := by
    unfold calculate_age
    rw [h]
  simp only [create_registration]
  rw [hage, if_pos (by omega)]
  rfl

/-- C9 witness: a gibberish date of birth. -/
theorem C9_unparseable_never_persisted_witness :
    create_registration ⟨2026, 10, 12⟩ "R" "T" ⟨"A", "gibberish", "x", "y", "z", none⟩ =
      (Except.error (400, "Age must be 50 or above. Current age: 0"), []) :=
  C9_unparseable_never_persisted ⟨2026, 10, 12⟩ "R" "T"
    ⟨"A", "gibberish", "x", "y", "z", none⟩ (by decide)

/-- C1 (counterexample): `calculate_age` is not non-negative on every input
string — with today = 2026-10-12 the parseable future birth date
`01/01/3000` yields the negative age 2026 − 3000 = −974. -/
theorem C1_counterexample :
    calculate_age ⟨2026, 10, 12⟩ "01/01/3000" < 0 := by
  decide

/-- C1 (amended): for every input string, if one of the four formats parses
it to a birth date then the result is `today.year - birth.year`, minus 1
exactly when today's (month, day) is lexicographically below the birth
(month, day) — this can be negative when the birth date is in the future;
it is non-negative whenever the birth date is not later than today; and if
no format parses the string, the result is 0. -/
theorem C1_age_formula (today : Date) (s : String) :
    (∀ b, tryFormats s.data = some b →
      calculate_age today s = (today.year : Int) - (b.year : Int) -
        (if pairLt (today.month, today.day) (b.month, b.day) then 1 else 0)) ∧
    (tryFormats s.data = none → calculate_age today s = 0) ∧
    (∀ b, tryFormats s.data = some b →
      (b.year < today.year ∨
        (b.year = today.year ∧
          pairLt (today.month, today.day) (b.month, b.day) = false)) →
      0 ≤ calculate_age today s) := by
  refine ⟨?_, ?_, ?_⟩
  · intro b hb
    unfold calculate_age
    rw [hb]
  · intro hn
    unfold calculate_age
    rw [hn]
  · intro b hb hpast
    have hf : calculate_age today s = (today.year : Int) - (b.year : Int) -
        (if pairLt (today.month, today.day) (b.month, b.day) then 1 else 0) := by
      unfold calculate_age
      rw [hb]
    rw [hf]
    rcases hpast with h | ⟨h1, h2⟩
    · split <;> omega
    · rw [if_neg (by simp [h2]), h1]
      omega

/-- C1 witness: a parseable past date gives the naive age, an unparseable
string gives 0. -/
theorem C1_age_formula_witness :
    calculate_age ⟨2026, 10, 12⟩ "15/08/1970" = 56 ∧
    calculate_age ⟨2026, 10, 12⟩ "not a date" = 0 := by
  constructor
  · have h := (C1_age_formula ⟨2026, 10, 12⟩ "15/08/1970").1 ⟨1970, 8, 15⟩ (by decide)
    exact h.trans (by decide)
  · exact (C1_age_formula ⟨2026, 10, 12⟩ "not a date").2.1 (by decide)

/-- C10: every value the Aadhaar extractor returns (rather than `None`)
consists of exactly 12 digit characters with no whitespace, and its first
digit is in the range 2–9, for every input text. -/
theorem C10_aadhaar_value_shape (text a : String)
    (h : extract_aadhaar_number text = some a) :
    a.length = 12 ∧ a.data.all isDigitChar = true ∧
      a.data.all (fun c => !isWS c) = true ∧
      ∃ c cs, a.data = c :: cs ∧ isD29 c = true := by
  obtain ⟨hlen, hdig, hcons⟩ := extract_aadhaar_shape h
  refine ⟨hlen, hdig, ?_, hcons⟩
  rw [List.all_eq_true] at hdig ⊢
  intro x hx
  rw [digit_not_ws (hdig x hx)]
  rfl

/-- C10 witness: the spaced Aadhaar `2345 6789 0123` extracts to the
12-digit `234567890123`. -/
theorem C10_aadhaar_value_shape_witness :
    ("234567890123" : String).length = 12 ∧
    ("234567890123" : String).data.all isDigitChar = true ∧
    ("234567890123" : String).data.all (fun c => !isWS c) = true ∧
    ∃ c cs, ("234567890123" : String).data = c :: cs ∧ isD29 c = true :=
  C10_aadhaar_value_shape "2345 6789 0123" "234567890123" (by decide)

/-- C3: any text containing both an Aadhaar-pattern substring and a
PAN-pattern substring is classified as Aadhaar — `id_type` is `"Aadhaar"`
(never `"PAN"`) and `id_number` is the Aadhaar extraction. -/
theorem C3_aadhaar_priority (text : String)
    (hA : ∃ pre m post, text.data = pre ++ (m ++ post) ∧ matchA1 m = some m)
    (_hP : ∃ pre m post, pyUpper text.data = pre ++ (m ++ post) ∧
      matchPAN m = some m) :
    (parse_ocr_text text).id_type = "Aadhaar" ∧
      ∃ a, extract_aadhaar_number text = some a ∧
        (parse_ocr_text text).id_number = a := by
  obtain ⟨pre, m, post, heq, hm⟩ := hA
  have hm2 : matchA1 (m ++ post) = some m := matchA1_append hm
  obtain ⟨r, hsr⟩ := reSearch_some_of_suffix matchA1 pre hm2
  rw [← heq] at hsr
  have hex : extract_aadhaar_number text = some ⟨stripWS r⟩ := by
    unfold extract_aadhaar_number
    rw [hsr]
    rfl
  obtain ⟨tl, htl⟩ := reSearch_sound matchA1 hsr
  obtain ⟨_, _, _, c, cs, hcons, _⟩ := matchA1_sound htl
  have hne : (⟨stripWS r⟩ : String).data.isEmpty = false := by
    show (stripWS r).isEmpty = false
    rw [hcons]
    rfl
  obtain ⟨ht1, ht2⟩ := parse_id_of_aadhaar hex hne
  exact ⟨ht1, ⟨stripWS r⟩, hex, ht2⟩

/-- C3 witness: a text holding both a PAN-shaped substring and an
Aadhaar-shaped substring classifies as Aadhaar. -/
theorem C3_aadhaar_priority_witness :
    (parse_ocr_text "ABCDE1234F 2345 6789 0123").id_type = "Aadhaar" ∧
      ∃ a, extract_aadhaar_number "ABCDE1234F 2345 6789 0123" = some a ∧
        (parse_ocr_text "ABCDE1234F 2345 6789 0123").id_number = a :=
  C3_aadhaar_priority "ABCDE1234F 2345 6789 0123"
    ⟨"ABCDE1234F ".data, "2345 6789 0123".data, [], by decide, by decide⟩
    ⟨[], "ABCDE1234F".data, " 2345 6789 0123".data, by decide, by decide⟩

/-! ### Digit strings and the identifier generator -/

/-- A lowercase hexadecimal character, as produced by `str(uuid.uuid4())`. -/
def isLowerHex (c : Char) : Bool :=
  isDigitChar c || (97 ≤ c.toNat && c.toNat ≤ 102)

/-- An uppercase hexadecimal character (a digit or `A`–`F`), hence
uppercase alphanumeric. -/
def isUpperHex (c : Char) : Bool :=
  isDigitChar c || (65 ≤ c.toNat && c.toNat ≤ 70)

/-- The rendering of a digit value is a digit character. -/
theorem isDigitChar_digitChar {n : Nat} (h : n < 10) :
    isDigitChar (digitChar n) = true := by
  unfold digitChar isDigitChar
  rw [char_toNat_ofNat (by omega), Bool.and_eq_true, decide_eq_true_eq,
    decide_eq_true_eq]
  omega

/-- Length of the decimal rendering: one more than the base-10 logarithm. -/
theorem natStrAux_length :
    ∀ fuel n, n < fuel → (natStrAux fuel n).length = Nat.log 10 n + 1 := by
  intro fuel
  induction fuel with
  | zero => intro n h; omega
  | succ f ih =>
      intro n h
      simp only [natStrAux]
      by_cases h10 : n < 10
      · rw [if_pos h10]
        have hz : Nat.log 10 n = 0 := Nat.log_eq_zero_iff.mpr (Or.inl h10)
        simp [hz]
      · rw [if_neg h10]
        rw [List.length_append, ih (n / 10) (by omega)]
        have hd := Nat.log_div_base 10 n
        have hp : 0 < Nat.log 10 n := Nat.log_pos (by omega) (by omega)
        simp only [List.length_cons, List.length_nil]
        omega

/-- Every character of the decimal rendering is a digit. -/
theorem natStrAux_digits : ∀ fuel n, (natStrAux fuel n).all isDigitChar = true := by
  intro fuel
  induction fuel with
  | zero => intro n; rfl
  | succ f ih =>
      intro n
      simp only [natStrAux]
      by_cases h10 : n < 10
      · rw [if_pos h10]
        simp [isDigitChar_digitChar h10]
      · rw [if_neg h10]
        rw [List.all_append, ih (n / 10)]
        simp [isDigitChar_digitChar (Nat.mod_lt n (by omega))]

/-- A four-digit year renders as four characters. -/
theorem natStr_length4 {n : Nat} (h1 : 1000 ≤ n) (h2 : n ≤ 9999) :
    (natStr n).length = 4 := by
  show (natStrAux (n + 1) n).length = 4
  rw [natStrAux_length (n + 1) n (by omega)]
  have hl : Nat.log 10 n = 3 :=
    Nat.log_eq_of_pow_le_of_lt_pow (by norm_num; omega) (by norm_num; omega)
  omega

/-- Uppercasing a lowercase hex character yields an uppercase hex
character. -/
theorem isUpperHex_pyUpperChar {c : Char} (h : isLowerHex c = true) :
    isUpperHex (pyUpperChar c) = true := by
  unfold isLowerHex isDigitChar at h
  rw [Bool.or_eq_true, Bool.and_eq_true, Bool.and_eq_true, decide_eq_true_eq,
    decide_eq_true_eq, decide_eq_true_eq, decide_eq_true_eq] at h
  unfold pyUpperChar
  rcases h with h | h
  · rw [if_neg (by
      rw [Bool.and_eq_true, decide_eq_true_eq, decide_eq_true_eq]
      omega)]
    unfold isUpperHex isDigitChar
    rw [Bool.or_eq_true, Bool.and_eq_true, decide_eq_true_eq, decide_eq_true_eq]
    exact Or.inl h
  · rw [if_pos (by
      rw [Bool.and_eq_true, decide_eq_true_eq, decide_eq_true_eq]
      omega)]
    unfold isUpperHex isDigitChar
    rw [char_toNat_ofNat (by omega), Bool.or_eq_true, Bool.and_eq_true,
      Bool.and_eq_true, decide_eq_true_eq, decide_eq_true_eq,
      decide_eq_true_eq, decide_eq_true_eq]
    omega

/-- C6: the generated identifier is `REG`, the rendered current UTC year
(4 characters, all digits, rendering exactly the year passed in), a hyphen,
and a 4-character suffix of uppercase hex (hence uppercase alphanumeric)
characters — given that the current year has four digits and that the
suffix source is the head of a uuid4 string (four lowercase hex
characters). -/
theorem C6_registration_id_format (year : Nat) (u : String)
    (hy1 : 1000 ≤ year) (hy2 : year ≤ 9999)
    (hu : (u.data.take 4).length = 4 ∧ (u.data.take 4).all isLowerHex = true) :
    ∃ ys sfx : String,
      generate_registration_id year u = "REG" ++ ys ++ "-" ++ sfx ∧
      ys = natStr year ∧ ys.length = 4 ∧ ys.data.all isDigitChar = true ∧
      sfx.length = 4 ∧ sfx.data.all isUpperHex = true := by
  refine ⟨natStr year, ⟨pyUpper (u.data.take 4)⟩, rfl, rfl,
    natStr_length4 hy1 hy2, natStrAux_digits (year + 1) year, ?_, ?_⟩
  · show (pyUpper (u.data.take 4)).length = 4
    unfold pyUpper
    rw [List.length_map]
    exact hu.1
  · show (pyUpper (u.data.take 4)).all isUpperHex = true
    unfold pyUpper
    rw [List.all_map]
    have h2 := hu.2
    rw [List.all_eq_true] at h2 ⊢
    intro x hx
    exact isUpperHex_pyUpperChar (h2 x hx)

/-- C6 witness: year 2026 with a concrete uuid4 string. -/
theorem C6_registration_id_format_witness :
    ∃ ys sfx : String,
      generate_registration_id 2026 "f47ac10b-58cc-4372-a567-0e02b2c3d479" =
        "REG" ++ ys ++ "-" ++ sfx ∧
      ys = natStr 2026 ∧ ys.length = 4 ∧ ys.data.all isDigitChar = true ∧
      sfx.length = 4 ∧ sfx.data.all isUpperHex = true :=
  C6_registration_id_format 2026 "f47ac10b-58cc-4372-a567-0e02b2c3d479"
    (by omega) (by omega) ⟨by decide, by decide⟩

end SeniorReg
